import Mathlib

/-!
Verification of the hface sans-I/O HTTP engine against its specification.

Byte strings are modelled as Lean `String` values (one `Char` per byte,
latin-1 style).  All string manipulation is done structurally on the
underlying character lists so that every definition evaluates by kernel
reduction.  The pure header-translation functions, the HTTP/1, HTTP/2 and
HTTP/3 protocol wrappers and the QUIC demultiplexer are translated from the
repository source.  The third-party codecs (h11, h2, aioquic) are external
collaborators; where their behaviour is needed it is either kept abstract
(a codec oracle parameter) or modelled from the spec, each such definition
marked in its doc comment.
-/

deriving instance DecidableEq for Except

namespace Hface

/-- ASCII lowercase of a single byte, as done by Python `bytes.lower()`. -/
def asciiLowerChar (c : Char) : Char :=
  if 'A' ≤ c ∧ c ≤ 'Z' then Char.ofNat (c.toNat + 32) else c

/-- ASCII uppercase of a single byte, as done by Python `bytes.upper()`. -/
def asciiUpperChar (c : Char) : Char :=
  if 'a' ≤ c ∧ c ≤ 'z' then Char.ofNat (c.toNat - 32) else c

/-- Python `bytes.lower()` (ASCII-only lowercasing). -/
def strLower (s : String) : String :=
  String.mk (s.data.map asciiLowerChar)

/-- Python `bytes.capitalize()`: first byte uppercased, the rest lowercased. -/
def strCapitalize (s : String) : String :=
  match s.data with
  | [] => ""
  | c :: cs => String.mk (asciiUpperChar c :: cs.map asciiLowerChar)

/-- Python `bytes.startswith(b":")`: the first byte is a colon. -/
def startsWithColon (s : String) : Bool :=
  match s.data with
  | ':' :: _ => true
  | _ => false

/-- Python `bytes.split(b"-")` on the character list. -/
def splitDash : List Char → List (List Char)
  | [] => [[]]
  | c :: cs =>
    let r := splitDash cs
    if c = '-' then [] :: r
    else
      match r with
      | [] => [[c]]
      | w :: ws => (c :: w) :: ws

/-- Python `b"-".join(...)`. -/
def joinDash : List String → String
  | [] => ""
  | [s] => s
  | s :: rest => s ++ "-" ++ joinDash rest

/-- Assoc-list lookup with decidable string equality. -/
def strLookup (table : List (String × String)) (key : String) : Option String :=
  match table with
  | [] => none
  | (k, v) :: rest => if k = key then some v else strLookup rest key

/-- Parse a decimal byte string, as Python `int(...)` on digits. -/
def strToNatDigits : List Char → Option Nat
  | [] => none
  | cs => cs.foldl (fun acc c =>
      match acc with
      | none => none
      | some n => if '0' ≤ c ∧ c ≤ '9' then some (n * 10 + (c.toNat - 48)) else none)
      (some 0)

/-- Lowercase hexadecimal rendering of a natural number (Python `"%x"`). -/
def toHexLower (n : Nat) : String :=
  String.mk (Nat.toDigits 16 n)

/-- The `_FIELD_NAME_CASE` table of `hface/protocols/http1/_helpers.py`. -/
def fieldNameCase : List (String × String) :=
  [("alpn", "ALPN"), ("amp", "AMP"), ("cdn", "CDN"), ("ch", "CH"), ("ct", "CT"),
   ("caldav", "CalDAV"), ("dasl", "DASL"), ("dav", "DAV"), ("ediint", "EDIINT"),
   ("etag", "ETag"), ("entityid", "EntityId"), ("gpc", "GPC"),
   ("getprofile", "GetProfile"), ("http2", "HTTP2"), ("id", "ID"), ("im", "IM"),
   ("md5", "MD5"), ("mime", "MIME"), ("maxversion", "MaxVersion"),
   ("odata", "OData"), ("oscore", "OSCORE"), ("oslc", "OSLC"), ("p3p", "P3P"),
   ("pep", "PEP"), ("pics", "PICS"), ("profileobject", "ProfileObject"),
   ("slug", "SLUG"), ("setprofile", "SetProfile"), ("soapaction", "SoapAction"),
   ("tcn", "TCN"), ("te", "TE"), ("ttl", "TTL"), ("uri", "URI"), ("www", "WWW"),
   ("websocket", "WebSocket"), ("dns", "DNS"), ("dpr", "DPR"), ("ect", "ECT"),
   ("nel", "NEL"), ("rtt", "RTT"), ("sourcemap", "SourceMap"), ("ua", "UA")]

/-- `_capitalize_word` of `hface/protocols/http1/_helpers.py`. -/
def capitalizeWord (part : String) : String :=
  match strLookup fieldNameCase part with
  | some w => w
  | none => strCapitalize part

/-- `capitalize_field_name` of `hface/protocols/http1/_helpers.py`. -/
def capitalizeFieldName (name : String) : String :=
  joinDash (((splitDash (strLower name).data).map String.mk).map capitalizeWord)

/-- An HTTP header: a (name, value) pair of byte strings. -/
abbrev Header := String × String

/-- An `h11.Request`: method, header list and request target. -/
structure H11Request where
  method : String
  headers : List Header
  target : String
deriving Repr, DecidableEq

/-- An `h11.Response`: status code and header list. -/
structure H11Response where
  statusCode : Nat
  headers : List Header
deriving Repr, DecidableEq

/-- Loop state of the header scan in `headers_to_request`
(`hface/protocols/http1/_protocol.py`). -/
structure RequestScan where
  method : Option String := none
  scheme : Option String := none
  authority : Option String := none
  path : Option String := none
  host : Option String := none
  needTransferEncoding : Bool
  regularHeaders : List Header := []
deriving Repr, DecidableEq

/-- The `for name, value in headers` loop of `headers_to_request`
(`hface/protocols/http1/_protocol.py`). -/
def scanRequestHeaders : List Header → RequestScan → Except String RequestScan
  | [], s => .ok s
  | (rawName, value) :: rest, s =>
    let name := strLower rawName
    if startsWithColon name then
      if name = ":method" then
        scanRequestHeaders rest { s with method := some value }
      else if name = ":scheme" then
        scanRequestHeaders rest { s with scheme := some value }
      else if name = ":authority" then
        scanRequestHeaders rest { s with authority := some value }
      else if name = ":path" then
        scanRequestHeaders rest { s with path := some value }
      else
        .error ("Unexpected request header: " ++ name)
    else if name = "host" then
      match s.host with
      | some _ => .error "Duplicate Host header."
      | none =>
        let s := { s with host := some value }
        scanRequestHeaders rest
          { s with regularHeaders := s.regularHeaders ++ [(capitalizeFieldName name, value)] }
    else if name = "content-length" ∨ name = "transfer-encoding" then
      let s := { s with needTransferEncoding := false }
      scanRequestHeaders rest
        { s with regularHeaders := s.regularHeaders ++ [(capitalizeFieldName name, value)] }
    else
      scanRequestHeaders rest
        { s with regularHeaders := s.regularHeaders ++ [(capitalizeFieldName name, value)] }

/-- `headers_to_request` of `hface/protocols/http1/_protocol.py`: translate
HTTP/2-style headers with pseudo headers into an HTTP/1 request. -/
def headersToRequest (headers : List Header) (hasContent : Bool) :
    Except String H11Request :=
  match scanRequestHeaders headers { needTransferEncoding := hasContent } with
  | .error e => .error e
  | .ok s =>
    match s.method with
    | none => .error "Missing request header: :method"
    | some method =>
      match s.authority with
      | none => .error "Missing request header: :authority"
      | some authority =>
        let targetAndRegulars : Except String (String × List Header) :=
          if method = "CONNECT" then
            match s.scheme with
            | some _ => .error "Unexpected header for a CONNECT request: :scheme"
            | none =>
              match s.path with
              | some _ => .error "Unexpected header for a CONNECT request: :path"
              | none => .ok (authority, s.regularHeaders)
          else
            match s.scheme with
            | none => .error "Missing request header: :scheme"
            | some _ =>
              match s.path with
              | none => .error "Missing request header: :path"
              | some path =>
                .ok (path,
                  if s.needTransferEncoding then
                    s.regularHeaders ++ [("Transfer-Encoding", "chunked")]
                  else s.regularHeaders)
        match targetAndRegulars with
        | .error e => .error e
        | .ok (target, regulars) =>
          match s.host with
          | none => .ok ⟨method, ("Host", authority) :: regulars, target⟩
          | some host =>
            if host = authority then .ok ⟨method, regulars, target⟩
            else .error "Host header does not match :authority."

/-- Loop of `headers_to_response` of `hface/protocols/http1/_protocol.py`. -/
def scanResponseHeaders : List Header → Option String → List Header →
    Except String (Option String × List Header)
  | [], status, regulars => .ok (status, regulars)
  | (rawName, value) :: rest, status, regulars =>
    let name := strLower rawName
    if startsWithColon name then
      if name = ":status" then
        scanResponseHeaders rest (some value) regulars
      else
        .error ("Invalid request header: " ++ name)
    else
      scanResponseHeaders rest status (regulars ++ [(capitalizeFieldName name, value)])

/-- `headers_to_response` of `hface/protocols/http1/_protocol.py`. -/
def headersToResponse (headers : List Header) : Except String H11Response :=
  match scanResponseHeaders headers none [] with
  | .error e => .error e
  | .ok (none, _) => .error "Missing response header: :status"
  | .ok (some status, regulars) =>
    match strToNatDigits status.data with
    | none => .error ("invalid literal for int: " ++ status)
    | some code => .ok ⟨code, regulars⟩

/-! ## The unified event model (`hface/events/_events.py`) -/

/-- The tagged event variants of `hface/events/_events.py`. -/
inductive HEvent where
  | headersReceived (streamId : Nat) (headers : List Header) (endStream : Bool)
  | dataReceived (streamId : Nat) (data : String) (endStream : Bool)
  | streamResetReceived (streamId : Nat) (errorCode : Nat)
  | streamResetSent (streamId : Nat) (errorCode : Nat)
  | goawayReceived (lastStreamId : Nat) (errorCode : Nat)
  | connectionTerminated (errorCode : Nat) (message : Option String)
deriving Repr, DecidableEq

/-! ## HTTP/1 state machine (`hface/protocols/http1/_protocol.py`)

The h11 codec is an external collaborator.  Its connection-state labels,
its writer (serialization of requests and chunked bodies) and its parser
output stream are modelled from the spec; the wrapper logic around them is
translated from the source. -/

/-- h11 connection roles. -/
inductive H11Role where
  | client
  | server
deriving Repr, DecidableEq

/-- Modelled from the spec: the h11 codec's per-side connection states that
the wrapper inspects (`IDLE`, `SEND_BODY`, `DONE`, `MUST_CLOSE`, `CLOSED`,
`MIGHT_SWITCH_PROTOCOL`, `SWITCHED_PROTOCOL`, `ERROR`). -/
inductive H11ConnState where
  | idle
  | sendBody
  | done
  | mustClose
  | closed
  | mightSwitchProtocol
  | switchedProtocol
  | errorState
deriving Repr, DecidableEq

/-- State of `HTTP1ProtocolImpl` plus the h11 connection state it reads:
the two per-side codec states, the writer's chunked-framing flag and the
codec's trailing data stand in for the embedded `h11.Connection`. -/
structure HTTP1State where
  role : H11Role
  ourState : H11ConnState
  theirState : H11ConnState
  chunkedSend : Bool
  trailingData : String
  scheme : String
  currentStreamId : Nat
  dataBuffer : List String
  eventBuffer : List HEvent
  terminated : Bool
  switched : Bool
deriving Repr, DecidableEq

/-- A fresh client-side `HTTP1ProtocolImpl` (both h11 sides `IDLE`,
`_current_stream_id = 1`, empty buffers). -/
def ht1ClientInit (scheme : String) : HTTP1State :=
  { role := .client, ourState := .idle, theirState := .idle, chunkedSend := false,
    trailingData := "", scheme := scheme, currentStreamId := 1, dataBuffer := [],
    eventBuffer := [], terminated := false, switched := false }

/-- A fresh server-side `HTTP1ProtocolImpl`. -/
def ht1ServerInit (scheme : String) : HTTP1State :=
  { ht1ClientInit scheme with role := .server }

/-- `HTTP1ProtocolImpl.is_available`: both h11 sides are `IDLE`. -/
def ht1IsAvailable (st : HTTP1State) : Bool :=
  st.ourState = .idle ∧ st.theirState = .idle

/-- `HTTP1ProtocolImpl.has_expired`. -/
def ht1HasExpired (st : HTTP1State) : Bool :=
  st.terminated

/-- `HTTP1ProtocolImpl._connection_terminated`: set the terminated flag and
build the event (the caller appends it). -/
def ht1Terminate (st : HTTP1State) (errorCode : Nat) (message : Option String) :
    HTTP1State :=
  { st with terminated := true,
            eventBuffer := st.eventBuffer ++ [.connectionTerminated errorCode message] }

/-- `HTTP1ProtocolImpl.get_available_stream_id`: requires client role and an
idle connection. -/
def ht1GetAvailableStreamId (st : HTTP1State) : Except String Nat :=
  if st.role ≠ .client then
    .error ("Cannot generate a new stream ID because at the server side. " ++
      "In HTTP/1.1, only clients can initiate information interchange.")
  else if ¬ht1IsAvailable st then
    .error ("Cannot generate a new stream ID because the connection is not idle. " ++
      "HTTP/1.1 is not multiplexed and we do not support HTTP pipelining.")
  else
    .ok st.currentStreamId

/-- Modelled from the spec: the h11 writer's serialization of a request --
request line `METHOD target HTTP/1.1`, one `Name: value` line per header,
and a blank line. -/
def renderRequest (req : H11Request) : String :=
  req.method ++ " " ++ req.target ++ " HTTP/1.1\r\n" ++
    String.join (req.headers.map (fun p => p.1 ++ ": " ++ p.2 ++ "\r\n")) ++ "\r\n"

/-- Modelled from the spec: the h11 writer's serialization of a response. -/
def renderResponse (resp : H11Response) : String :=
  "HTTP/1.1 " ++ String.mk (Nat.toDigits 10 resp.statusCode) ++ " \r\n" ++
    String.join (resp.headers.map (fun p => p.1 ++ ": " ++ p.2 ++ "\r\n")) ++ "\r\n"

/-- Modelled from the spec: RFC 9112 chunked transfer coding of one body
chunk -- lowercase hex size, CRLF, data, CRLF; empty chunks are skipped. -/
def renderChunk (data : String) : String :=
  if data = "" then "" else toHexLower data.length ++ "\r\n" ++ data ++ "\r\n"

/-- Modelled from the spec: whether the h11 writer frames the message body
with chunked transfer coding (a `Transfer-Encoding` header is present). -/
def usesChunkedFraming (headers : List Header) : Bool :=
  headers.any fun p => strLower p.1 = "transfer-encoding"

/-- `HTTP1ProtocolImpl._h11_submit` of an `h11.Request`: serialize into the
data buffer; the writer enters the body state. -/
def h11SubmitRequest (st : HTTP1State) (req : H11Request) : HTTP1State :=
  { st with dataBuffer := st.dataBuffer ++ [renderRequest req],
            chunkedSend := usesChunkedFraming req.headers,
            ourState := .sendBody }

/-- `HTTP1ProtocolImpl._h11_submit` of an `h11.Response`. -/
def h11SubmitResponse (st : HTTP1State) (resp : H11Response) : HTTP1State :=
  { st with dataBuffer := st.dataBuffer ++ [renderResponse resp],
            chunkedSend := usesChunkedFraming resp.headers,
            ourState := .sendBody }

/-- `HTTP1ProtocolImpl._h11_submit` of `h11.Data`: chunk-framed when the
message uses chunked transfer coding, raw passthrough otherwise. -/
def h11SubmitData (st : HTTP1State) (data : String) : HTTP1State :=
  let payload := if st.chunkedSend then renderChunk data else data
  { st with dataBuffer := if payload = "" then st.dataBuffer
                          else st.dataBuffer ++ [payload] }

/-- `HTTP1ProtocolImpl._h11_submit` of `h11.EndOfMessage`: the chunked
terminator when chunk-framing, nothing otherwise; our side is done. -/
def h11SubmitEndOfMessage (st : HTTP1State) : HTTP1State :=
  let st := if st.chunkedSend then { st with dataBuffer := st.dataBuffer ++ ["0\r\n\r\n"] }
            else st
  { st with ourState := .done }

/-- `HTTP1ProtocolImpl.submit_headers`. -/
def ht1SubmitHeaders (st : HTTP1State) (streamId : Nat) (headers : List Header)
    (endStream : Bool) : Except String HTTP1State :=
  if streamId ≠ st.currentStreamId then
    .error "Invalid stream ID."
  else
    let submitted : Except String HTTP1State :=
      match st.role with
      | .client => (headersToRequest headers (!endStream)).map
          (h11SubmitRequest st)
      | .server => (headersToResponse headers).map (h11SubmitResponse st)
    match submitted with
    | .error e => .error e
    | .ok st => .ok (if endStream then h11SubmitEndOfMessage st else st)

/-- `HTTP1ProtocolImpl.submit_data`. -/
def ht1SubmitData (st : HTTP1State) (streamId : Nat) (data : String)
    (endStream : Bool) : Except String HTTP1State :=
  if streamId ≠ st.currentStreamId then
    .error "Invalid stream ID."
  else if st.theirState = .switchedProtocol then
    let st := { st with dataBuffer := st.dataBuffer ++ [data] }
    .ok (if endStream then ht1Terminate st 0 none else st)
  else
    let st := h11SubmitData st data
    .ok (if endStream then h11SubmitEndOfMessage st else st)

/-- `HTTP1ProtocolImpl.connection_lost`. -/
def ht1ConnectionLost (st : HTTP1State) : HTTP1State :=
  if st.theirState = .switchedProtocol then
    ht1Terminate st 0 none
  else if ¬st.terminated then
    ht1Terminate { st with ourState := .errorState } 0 none
  else st

/-- `HTTP1ProtocolImpl._maybe_start_next_cycle`: restart the h11 cycle when
both sides are `DONE`, and flush the codec's trailing data once when the
peer has switched protocols. -/
def ht1MaybeStartNextCycle (st : HTTP1State) : HTTP1State :=
  let st :=
    if st.ourState = .done ∧ st.theirState = .done then
      { st with ourState := .idle, theirState := .idle,
                currentStreamId := st.currentStreamId + 1 }
    else st
  if st.theirState = .switchedProtocol ∧ st.switched = false then
    let st :=
      if st.trailingData ≠ "" then
        { st with eventBuffer :=
            st.eventBuffer ++ [.dataReceived st.currentStreamId st.trailingData false] }
      else st
    { st with switched := true }
  else st

/-- `HTTP1ProtocolImpl.bytes_to_send`: drain the data buffer. -/
def ht1BytesToSend (st : HTTP1State) : String × HTTP1State :=
  (String.join st.dataBuffer, ht1MaybeStartNextCycle { st with dataBuffer := [] })

/-- `HTTP1ProtocolImpl.next_event`: pop the oldest buffered event. -/
def ht1NextEvent (st : HTTP1State) : Option HEvent × HTTP1State :=
  match st.eventBuffer with
  | [] => (none, st)
  | e :: rest => (some e, { st with eventBuffer := rest })

/-- Modelled from the spec: one outcome of pulling `h11.Connection.next_event`
-- either an h11 event, a need-data/paused pause, a closed notification, or
a `RemoteProtocolError` with its `error_status_hint`. -/
inductive H11Out where
  | needData
  | paused
  | request (r : H11Request)
  | response (resp : H11Response)
  | informationalResponse (resp : H11Response)
  | dataEvent (data : String)
  | endOfMessage
  | connectionClosed
  | remoteProtocolError (hint : Nat) (msg : String)
deriving Repr, DecidableEq

/-- `headers_from_request` of `hface/protocols/http1/_protocol.py`: lift an
HTTP/1 request to HTTP/2-like headers with pseudo headers. -/
def headersFromRequest (req : H11Request) (scheme : String) :
    Except String (List Header) :=
  let scan : List Header → Option String → List Header →
      Except String (Option String × List Header) :=
    fun hs host regulars =>
      hs.foldl (fun acc (p : Header) =>
        match acc with
        | .error e => .error e
        | .ok (host, regulars) =>
          let name := strLower p.1
          if startsWithColon name then
            .error ("Pseudo header not allowed in HTTP/1: " ++ name)
          else if name = "host" then
            match host with
            | some _ => .error "Duplicate Host header."
            | none => .ok (some p.2, regulars)
          else
            .ok (host, regulars ++ [(name, p.2)])) (.ok (host, regulars))
  match scan req.headers none [] with
  | .error e => .error e
  | .ok (host, regulars) =>
    if req.method = "CONNECT" then
      .ok ([(":method", req.method), (":authority", req.target)] ++ regulars)
    else
      let authority := match host with | none => "" | some h => h
      .ok ([(":method", req.method), (":scheme", scheme),
            (":authority", authority), (":path", req.target)] ++ regulars)

/-- `headers_from_response` of `hface/protocols/http1/_protocol.py`. -/
def headersFromResponse (resp : H11Response) : Except String (List Header) :=
  let scan : List Header → Except String (List Header) :=
    fun hs =>
      hs.foldl (fun acc (p : Header) =>
        match acc with
        | .error e => .error e
        | .ok regulars =>
          let name := strLower p.1
          if startsWithColon name then
            .error ("Pseudo header not allowed in HTTP/1: " ++ name)
          else
            .ok (regulars ++ [(name, p.2)])) (.ok [])
  match scan resp.headers with
  | .error e => .error e
  | .ok regulars =>
    .ok ([(":status", String.mk (Nat.toDigits 10 resp.statusCode))] ++ regulars)

/-- Whether a buffered event is `HeadersReceived` or `DataReceived`. -/
def isHeadersOrData : HEvent → Bool
  | .headersReceived _ _ _ => true
  | .dataReceived _ _ _ => true
  | _ => false

/-- Set the `end_stream` flag of a `HeadersReceived` or `DataReceived`. -/
def setEndStream : HEvent → HEvent
  | .headersReceived s h _ => .headersReceived s h true
  | .dataReceived s d _ => .dataReceived s d true
  | e => e

/-- The `h11.EndOfMessage` branch of `HTTP1ProtocolImpl._fetch_events`:
mark the last buffered `HeadersReceived`/`DataReceived` as `end_stream`, or
append an empty terminal `DataReceived`; while the peer might still switch
protocols the `end_stream` flag is left unset. -/
def ht1HandleEndOfMessage (st : HTTP1State) : HTTP1State :=
  let buf :=
    match st.eventBuffer.getLast? with
    | some e =>
      if isHeadersOrData e then st.eventBuffer
      else st.eventBuffer ++ [.dataReceived st.currentStreamId "" false]
    | none => st.eventBuffer ++ [.dataReceived st.currentStreamId "" false]
  let buf :=
    if st.theirState ≠ .mightSwitchProtocol then
      buf.dropLast ++ (buf.getLast?.map setEndStream).toList
    else buf
  ht1MaybeStartNextCycle { st with eventBuffer := buf }

/-- The event-pull loop `HTTP1ProtocolImpl._fetch_events`, applied to the
stream of outcomes the h11 codec yields for the fed bytes. -/
def ht1FetchEvents : HTTP1State → List H11Out → Except String HTTP1State
  | st, [] => .ok st
  | st, out :: rest =>
    if st.terminated then .ok st
    else
      match out with
      | .remoteProtocolError hint msg => .ok (ht1Terminate st hint (some msg))
      | .needData =>
        if st.theirState = .mustClose then ht1FetchEvents (ht1Terminate st 0 none) rest
        else .ok st
      | .paused =>
        if st.theirState = .mustClose then ht1FetchEvents (ht1Terminate st 0 none) rest
        else .ok st
      | .request r =>
        match headersFromRequest r st.scheme with
        | .error e => .error e
        | .ok headers =>
          ht1FetchEvents
            { st with eventBuffer :=
                st.eventBuffer ++ [.headersReceived st.currentStreamId headers false] }
            rest
      | .response resp =>
        match headersFromResponse resp with
        | .error e => .error e
        | .ok headers =>
          ht1FetchEvents
            { st with eventBuffer :=
                st.eventBuffer ++ [.headersReceived st.currentStreamId headers false] }
            rest
      | .informationalResponse resp =>
        match headersFromResponse resp with
        | .error e => .error e
        | .ok headers =>
          ht1FetchEvents
            { st with eventBuffer :=
                st.eventBuffer ++ [.headersReceived st.currentStreamId headers false] }
            rest
      | .dataEvent data =>
        ht1FetchEvents
          { st with eventBuffer :=
              st.eventBuffer ++ [.dataReceived st.currentStreamId data false] }
          rest
      | .endOfMessage => ht1FetchEvents (ht1HandleEndOfMessage st) rest
      | .connectionClosed => ht1FetchEvents (ht1Terminate st 0 none) rest

/-- `HTTP1ProtocolImpl._h11_data_received`: feed the codec, pull its events,
then maybe start the next cycle.  The codec's parse outcome for the fed
bytes enters as the `codecOut` oracle parameter. -/
def ht1DataReceived (st : HTTP1State) (codecOut : List H11Out) :
    Except String HTTP1State :=
  (ht1FetchEvents st codecOut).map ht1MaybeStartNextCycle

/-- `HTTP1ProtocolImpl.bytes_received`: empty input is ignored (h11 treats
empty data as EOF); in the switched-protocol tunnel inbound bytes become
`DataReceived` events; otherwise the bytes are fed to the codec. -/
def ht1BytesReceived (st : HTTP1State) (data : String) (codecOut : List H11Out) :
    Except String HTTP1State :=
  if data = "" then .ok st
  else if st.theirState = .switchedProtocol then
    .ok { st with eventBuffer :=
            st.eventBuffer ++ [.dataReceived st.currentStreamId data false] }
  else ht1DataReceived st codecOut

/-- `HTTP1ProtocolImpl.eof_received`. -/
def ht1EofReceived (st : HTTP1State) (codecOut : List H11Out) :
    Except String HTTP1State :=
  if st.theirState = .switchedProtocol then .ok (ht1Terminate st 0 none)
  else ht1DataReceived st codecOut

/-! ## HTTP/2 state machine (`hface/protocols/http2/_protocol.py`)

The h2 codec is abstract: an `H2Codec` record of the operations the wrapper
calls, over an arbitrary codec-state type.  `receive_data` returns the new
codec state together with either the parsed frame events or the
`ProtocolError` data (`error_code`, message) -- the codec state is updated
even on an error, which is how h2 buffers the GOAWAY it serializes. -/

/-- The h2 codec events `HTTP2ProtocolImpl._map_events` dispatches on. -/
inductive H2CodecEvent where
  | requestReceived (streamId : Nat) (headers : List Header) (streamEnded : Bool)
  | responseReceived (streamId : Nat) (headers : List Header) (streamEnded : Bool)
  | dataReceived (streamId : Nat) (data : String) (streamEnded : Bool)
  | streamReset (streamId : Nat) (errorCode : Nat)
  | connectionTerminated (lastStreamId : Nat) (errorCode : Nat)
  | ignored
deriving Repr, DecidableEq

/-- The h2 codec operations used by `HTTP2ProtocolImpl`. -/
structure H2Codec (σ : Type) where
  receiveData : σ → String → σ × Except (Nat × String) (List H2CodecEvent)
  dataToSend : σ → σ × String
  sendHeaders : σ → Nat → List Header → Bool → Except String σ
  sendData : σ → Nat → String → Bool → Except String σ
  resetStream : σ → Nat → Nat → σ
  nextAvailableStreamId : σ → Nat

/-- State of `HTTP2ProtocolImpl`: the embedded codec state, the event deque
and the terminated flag. -/
structure HTTP2State (σ : Type) where
  codec : σ
  events : List HEvent
  terminated : Bool
deriving Repr, DecidableEq

/-- A fresh `HTTP2ProtocolImpl` over an initialized codec state. -/
def ht2Init {σ : Type} (codec : σ) : HTTP2State σ :=
  ⟨codec, [], false⟩

/-- `HTTP2ProtocolImpl.is_available`. -/
def ht2IsAvailable {σ : Type} (st : HTTP2State σ) : Bool :=
  !st.terminated

/-- `HTTP2ProtocolImpl.has_expired`. -/
def ht2HasExpired {σ : Type} (st : HTTP2State σ) : Bool :=
  st.terminated

/-- `HTTP2ProtocolImpl._connection_terminated`: a no-op when already
terminated, otherwise set the flag and append one `ConnectionTerminated`. -/
def ht2Terminate {σ : Type} (st : HTTP2State σ) (errorCode : Nat)
    (message : Option String) : HTTP2State σ :=
  if st.terminated then st
  else { st with terminated := true,
                 events := st.events ++ [.connectionTerminated errorCode message] }

/-- `HTTP2ProtocolImpl.connection_lost`. -/
def ht2ConnectionLost {σ : Type} (st : HTTP2State σ) : HTTP2State σ :=
  ht2Terminate st 0 none

/-- `HTTP2ProtocolImpl.eof_received`. -/
def ht2EofReceived {σ : Type} (st : HTTP2State σ) : HTTP2State σ :=
  ht2Terminate st 0 none

/-- `HTTP2ProtocolImpl._map_events` on one codec event. -/
def h2MapEvent : H2CodecEvent → List HEvent
  | .requestReceived sid headers ended => [.headersReceived sid headers ended]
  | .responseReceived sid headers ended => [.headersReceived sid headers ended]
  | .dataReceived sid data ended => [.dataReceived sid data ended]
  | .streamReset sid code => [.streamResetReceived sid code]
  | .connectionTerminated lastSid code => [.goawayReceived lastSid code]
  | .ignored => []

/-- `HTTP2ProtocolImpl.bytes_received`. -/
def ht2BytesReceived {σ : Type} (c : H2Codec σ) (st : HTTP2State σ)
    (data : String) : HTTP2State σ :=
  if data = "" then st
  else
    let (codec, result) := c.receiveData st.codec data
    match result with
    | .error (code, msg) => ht2Terminate { st with codec := codec } code (some msg)
    | .ok evs =>
      { st with codec := codec, events := st.events ++ (evs.map h2MapEvent).flatten }

/-- `HTTP2ProtocolImpl.bytes_to_send`: delegate to the codec. -/
def ht2BytesToSend {σ : Type} (c : H2Codec σ) (st : HTTP2State σ) :
    String × HTTP2State σ :=
  let (codec, payload) := c.dataToSend st.codec
  (payload, { st with codec := codec })

/-- `HTTP2ProtocolImpl.next_event`. -/
def ht2NextEvent {σ : Type} (st : HTTP2State σ) : Option HEvent × HTTP2State σ :=
  match st.events with
  | [] => (none, st)
  | e :: rest => (some e, { st with events := rest })

/-- `HTTP2ProtocolImpl.submit_headers`. -/
def ht2SubmitHeaders {σ : Type} (c : H2Codec σ) (st : HTTP2State σ)
    (streamId : Nat) (headers : List Header) (endStream : Bool) :
    Except String (HTTP2State σ) :=
  (c.sendHeaders st.codec streamId headers endStream).map
    (fun codec => { st with codec := codec })

/-- `HTTP2ProtocolImpl.submit_data`. -/
def ht2SubmitData {σ : Type} (c : H2Codec σ) (st : HTTP2State σ)
    (streamId : Nat) (data : String) (endStream : Bool) :
    Except String (HTTP2State σ) :=
  (c.sendData st.codec streamId data endStream).map
    (fun codec => { st with codec := codec })

/-- `HTTP2ProtocolImpl.submit_stream_reset`: reset in the codec and push
`StreamResetSent`. -/
def ht2SubmitStreamReset {σ : Type} (c : H2Codec σ) (st : HTTP2State σ)
    (streamId : Nat) (errorCode : Nat) : HTTP2State σ :=
  { st with codec := c.resetStream st.codec streamId errorCode,
            events := st.events ++ [.streamResetSent streamId errorCode] }

/-- Prefix test on byte strings. -/
def strStarts (pre s : String) : Bool :=
  pre.data.isPrefixOf s.data

/-- The RFC 9113 client connection preface. -/
def h2Magic : String := "PRI * HTTP/2.0\r\n\r\nSM\r\n\r\n"

/-- A GOAWAY frame with error code `PROTOCOL_ERROR` (9-byte frame header:
24-bit length 8, type 0x07, flags 0, stream 0; payload: last stream id 0,
error code 0x01). -/
def goawayProtocolError : String :=
  "\x00\x00\x08\x07\x00\x00\x00\x00\x00\x00\x00\x00\x00\x00\x00\x00\x01"

/-- Modelled from the spec: a minimal server-side h2 codec used to
instantiate the abstract codec in witnesses.  Its state is the pending
outbound byte buffer.  Input that does not begin with the HTTP/2 client
magic is rejected with a `ProtocolError` of code 0x01 and a GOAWAY frame is
buffered; input that is consistent with the magic parses to no events. -/
def specH2Codec : H2Codec String where
  receiveData := fun pending data =>
    if strStarts data h2Magic ∨ strStarts h2Magic data then (pending, .ok [])
    else (pending ++ goawayProtocolError, .error (1, "Invalid HTTP/2 preface."))
  dataToSend := fun pending => ("", pending)
  sendHeaders := fun pending _ _ _ => .ok pending
  sendData := fun pending _ _ _ => .ok pending
  resetStream := fun pending _ _ => pending
  nextAvailableStreamId := fun _ => 1

/-! ## Connection facade (`hface/connections/_connections.py`)

`open`/`aclose` over an abstract protocol: the transport's send context
drains `bytes_to_send` and writes the payload to the socket. -/

/-- The protocol operations the facade lifecycle uses. -/
structure ProtoOps (π : Type) where
  submitClose : π → π
  bytesToSend : π → π × String

/-- State of an `HTTPConnection` together with its transport's socket. -/
structure ConnState (π : Type) where
  protocol : π
  sentToSocket : List String
  socketClosed : Bool
  opened : Bool
  closed : Bool
deriving Repr, DecidableEq

/-- The transport send context: drain `bytes_to_send` and flush a non-empty
payload to the socket (`TCPTransport.send_context`). -/
def connFlush {π : Type} (ops : ProtoOps π) (st : ConnState π) : ConnState π :=
  let (p, payload) := ops.bytesToSend st.protocol
  { st with protocol := p,
            sentToSocket := if payload = "" then st.sentToSocket
                            else st.sentToSocket ++ [payload] }

/-- `HTTPConnection.open`: guarded by the `_opened` flag; sends the protocol
preamble if any. -/
def connOpen {π : Type} (ops : ProtoOps π) (st : ConnState π) : ConnState π :=
  if st.opened then st
  else connFlush ops { st with opened := true }

/-- `HTTPConnection.aclose`: guarded by the `_closed` flag; submits a
graceful close, flushes, and closes the socket. -/
def connAclose {π : Type} (ops : ProtoOps π) (st : ConnState π) : ConnState π :=
  if st.closed then st
  else
    let st := { st with closed := true }
    let st := { st with protocol := ops.submitClose st.protocol }
    let st := connFlush ops st
    { st with socketClosed := true }

/-! ## QUIC packet sniffing (`hface/protocols/http3/_quic.py`) -/

/-- The result of aioquic's `pull_quic_header` (an external parser, passed
in as a function parameter where sniffing happens). -/
structure QuicHeader where
  version : Option Nat
  packetType : Nat
  destinationCid : String
  sourceCid : String
deriving Repr, DecidableEq

/-- aioquic's `PACKET_TYPE_INITIAL` (`PACKET_LONG_HEADER | PACKET_FIXED_BIT`
with long-header type 0). -/
def packetTypeInitial : Nat := 0xC0

/-- `PacketInfo` of `hface/protocols/http3/_quic.py`. -/
structure PacketInfo where
  version : Option Nat
  packetType : Nat
  destinationConnectionId : String
  sourceConnectionId : String
  length : Nat
deriving Repr, DecidableEq

/-- `PacketInfo.is_initial_packet`: packets shorter than 1200 bytes are
never treated as Initial. -/
def PacketInfo.isInitialPacket (info : PacketInfo) : Bool :=
  if info.length < 1200 then false
  else info.packetType = packetTypeInitial

/-- `sniff_packet` of `hface/protocols/http3/_quic.py`: pull the QUIC
header (`pull` is aioquic's parser), failing with `InvalidPacket` when the
header does not parse; record the datagram length. -/
def sniffPacket (pull : String → Nat → Option QuicHeader) (data : String)
    (connectionIdLength : Nat) : Except String PacketInfo :=
  match pull data connectionIdLength with
  | none => .error "Invalid header"
  | some h =>
    .ok ⟨h.version, h.packetType, h.destinationCid, h.sourceCid, data.length⟩

/-! ## HTTP/3 state machine (`hface/protocols/http3/_protocol.py`)

The aioquic QUIC/H3 codec pair is abstract: a `QuicOracle` record over an
arbitrary codec-state type. -/

/-- A datagram: payload bytes and the peer address. -/
abbrev Datagram := String × (String × Nat)

/-- The aioquic QUIC events `HTTP3ProtocolImpl._map_quic_event` dispatches
on. -/
inductive QuicEv where
  | connectionIdIssued (cid : String)
  | connectionIdRetired (cid : String)
  | handshakeCompleted
  | connectionTerminated (errorCode : Nat) (reason : String)
  | streamReset (streamId : Nat) (errorCode : Nat)
  | other
deriving Repr, DecidableEq

/-- The aioquic H3 events `HTTP3ProtocolImpl._map_h3_event` dispatches on. -/
inductive H3Ev where
  | headersReceived (streamId : Nat) (headers : List Header) (streamEnded : Bool)
  | dataReceived (streamId : Nat) (data : String) (streamEnded : Bool)
  | other
deriving Repr, DecidableEq

/-- The aioquic operations `HTTP3ProtocolImpl` uses.  `pullEvents` is the
`iter(quic.next_event, None)` loop paired with `http.handle_event` on each
QUIC event. -/
structure QuicOracle (κ : Type) where
  mkServer : String → κ
  mkClient : Option (String × Nat) → Nat → κ
  odcid : κ → String
  hostCid : κ → String
  receiveDatagram : κ → String → String × Nat → Nat → κ
  pullEvents : κ → κ × List (QuicEv × List H3Ev)

/-- Insert into the `_connection_ids` set. -/
def cidInsert (cids : List String) (cid : String) : List String :=
  if cid ∈ cids then cids else cids ++ [cid]

/-- Remove from the `_connection_ids` set. -/
def cidRemove (cids : List String) (cid : String) : List String :=
  cids.filter fun c => if c = cid then false else true

/-- State of `HTTP3ProtocolImpl`: the lazily initialized codec state, the
active connection-id set, the clock, the event deque and the terminated
flag. -/
structure HTTP3State (κ : Type) where
  isClient : Bool
  remoteAddress : Option (String × Nat)
  quic : Option κ
  connectionIds : List String
  now : Option Nat
  events : List HEvent
  terminated : Bool
deriving Repr, DecidableEq

/-- A fresh server-side `HTTP3ProtocolImpl`. -/
def ht3ServerInit {κ : Type} : HTTP3State κ :=
  { isClient := false, remoteAddress := none, quic := none, connectionIds := [],
    now := none, events := [], terminated := false }

/-- `HTTP3ProtocolImpl.is_available`. -/
def ht3IsAvailable {κ : Type} (st : HTTP3State κ) : Bool :=
  !st.terminated

/-- `HTTP3ProtocolImpl.has_expired`. -/
def ht3HasExpired {κ : Type} (st : HTTP3State κ) : Bool :=
  st.terminated

/-- `HTTP3ProtocolImpl.connection_lost`: set the terminated flag and append
`ConnectionTerminated()` -- with no guard against being already
terminated. -/
def ht3ConnectionLost {κ : Type} (st : HTTP3State κ) : HTTP3State κ :=
  { st with terminated := true,
            events := st.events ++ [.connectionTerminated 0 none] }

/-- `HTTP3ProtocolImpl.next_event`: pop the oldest buffered event. -/
def ht3NextEvent {κ : Type} (st : HTTP3State κ) : Option HEvent × HTTP3State κ :=
  match st.events with
  | [] => (none, st)
  | e :: rest => (some e, { st with events := rest })

/-- `HTTP3ProtocolImpl._map_quic_event` on one QUIC event: maintain the
connection-id set and map termination/reset events. -/
def ht3ApplyQuicEvent {κ : Type} (st : HTTP3State κ) : QuicEv → HTTP3State κ
  | .connectionIdIssued cid =>
    { st with connectionIds := cidInsert st.connectionIds cid }
  | .connectionIdRetired cid =>
    { st with connectionIds := cidRemove st.connectionIds cid }
  | .handshakeCompleted => st
  | .connectionTerminated code reason =>
    { st with terminated := true,
              events := st.events ++ [.connectionTerminated code (some reason)] }
  | .streamReset sid code =>
    { st with events := st.events ++ [.streamResetReceived sid code] }
  | .other => st

/-- `HTTP3ProtocolImpl._map_h3_event` on one H3 event. -/
def ht3ApplyH3Event {κ : Type} (st : HTTP3State κ) : H3Ev → HTTP3State κ
  | .headersReceived sid headers ended =>
    { st with events := st.events ++ [.headersReceived sid headers ended] }
  | .dataReceived sid data ended =>
    { st with events := st.events ++ [.dataReceived sid data ended] }
  | .other => st

/-- `HTTP3ProtocolImpl._fetch_events`: pull every pending codec event,
mapping the QUIC event and then its H3 events. -/
def ht3FetchEvents {κ : Type} (o : QuicOracle κ) (st : HTTP3State κ) (q : κ) :
    HTTP3State κ :=
  let (q, evs) := o.pullEvents q
  let st := { st with quic := some q }
  evs.foldl
    (fun st (p : QuicEv × List H3Ev) =>
      p.2.foldl ht3ApplyH3Event (ht3ApplyQuicEvent st p.1))
    st

/-- `HTTP3ProtocolImpl._server_connect`: sniff the first datagram, build
the QUIC connection with the sniffed destination connection id as the
original destination, and add both that id and the server's chosen host
connection id to the active set. -/
def ht3ServerConnect {κ : Type} (o : QuicOracle κ)
    (pull : String → Nat → Option QuicHeader) (connectionIdLength : Nat)
    (st : HTTP3State κ) (data : String) : Except String (κ × List String) :=
  match sniffPacket pull data connectionIdLength with
  | .error e => .error e
  | .ok info =>
    let q := o.mkServer info.destinationConnectionId
    let cids := cidInsert st.connectionIds (o.odcid q)
    let cids := cidInsert cids (o.hostCid q)
    .ok (q, cids)

/-- The processing tail of `HTTP3ProtocolImpl.datagram_received`: feed the
datagram to the (initialized) codec and fetch events. -/
def ht3ProcessDatagram {κ : Type} (o : QuicOracle κ) (st : HTTP3State κ) (q : κ)
    (data : String) (addr : String × Nat) (now : Nat) : HTTP3State κ :=
  ht3FetchEvents o st (o.receiveDatagram q data addr now)

/-- `HTTP3ProtocolImpl.datagram_received`: on a server with no QUIC
connection yet, initialize from the first datagram, then process it. -/
def ht3DatagramReceived {κ : Type} (o : QuicOracle κ)
    (pull : String → Nat → Option QuicHeader) (connectionIdLength : Nat)
    (st : HTTP3State κ) (dgram : Datagram) : Except String (HTTP3State κ) :=
  let data := dgram.1
  let addr := dgram.2
  let initialized : Except String (HTTP3State κ) :=
    if st.quic.isNone ∧ st.isClient = false then
      match ht3ServerConnect o pull connectionIdLength st data with
      | .error e => .error e
      | .ok (q, cids) => .ok { st with quic := some q, connectionIds := cids }
    else .ok st
  match initialized with
  | .error e => .error e
  | .ok st =>
    match st.quic with
    | some q =>
      match st.now with
      | some now => .ok (ht3ProcessDatagram o st q data addr now)
      | none => .error "Clock has not been set."
    | none =>
      if st.isClient then
        match st.now with
        | some now =>
          let q := o.mkClient st.remoteAddress now
          .ok (ht3ProcessDatagram o { st with quic := some q } q data addr now)
        | none => .error "Clock has not been set."
      else .error "QUIC connection has not been initialized yet."

/-! ## QUIC demux listener (`hface/networking/_quic.py`)

`QUICRouter` and one iteration of `QUICListener.serve`.  Queues are the
per-connection memory streams, identified by a numeric id. -/

/-- Routing-table lookup (`connection_id -> queue id`). -/
def tableLookup : List (String × Nat) → String → Option Nat
  | [], _ => none
  | (k, v) :: rest, key => if k = key then some v else tableLookup rest key

/-- Queue lookup by queue id. -/
def queueLookup : List (Nat × List Datagram) → Nat → Option (List Datagram)
  | [], _ => none
  | (k, v) :: rest, key => if k = key then some v else queueLookup rest key

/-- Push a datagram onto the queue with the given id (`send_nowait`). -/
def queuePush (queues : List (Nat × List Datagram)) (qid : Nat)
    (dgram : Datagram) : List (Nat × List Datagram) :=
  queues.map fun p => if p.1 = qid then (p.1, p.2 ++ [dgram]) else p

/-- State of a `QUICListener`: the router's table, the per-connection
queues, and a supply of fresh queue ids. -/
structure ListenerState where
  table : List (String × Nat)
  queues : List (Nat × List Datagram)
  nextQueueId : Nat
deriving Repr, DecidableEq

/-- `QUICRouter.route`: push the datagram to the queue subscribed for the
connection id, if any; report whether it was routed. -/
def routerRoute (ls : ListenerState) (cid : String) (dgram : Datagram) :
    Bool × ListenerState :=
  match tableLookup ls.table cid with
  | none => (false, ls)
  | some qid => (true, { ls with queues := queuePush ls.queues qid dgram })

/-- `QUICRouter.subscribe`. -/
def routerSubscribe (ls : ListenerState) (cid : String) (qid : Nat) :
    ListenerState :=
  { ls with table := ls.table ++ [(cid, qid)] }

/-- One iteration of the `QUICListener.serve` accept loop: sniff the
datagram (dropped if the header does not parse), route it to the subscribed
queue if the destination id is known, otherwise -- for a supported-version
Initial packet only -- create a fresh queue holding the datagram and
subscribe the destination id to it. -/
def serveStep (pull : String → Nat → Option QuicHeader) (connectionIdLength : Nat)
    (supportedVersions : List Nat) (ls : ListenerState) (dgram : Datagram) :
    ListenerState :=
  match sniffPacket pull dgram.1 connectionIdLength with
  | .error _ => ls
  | .ok info =>
    let cid := info.destinationConnectionId
    let routed := routerRoute ls cid dgram
    if routed.1 then routed.2
    else if info.isInitialPacket then
      match info.version with
      | none => ls
      | some v =>
        if v ∈ supportedVersions then
          let qid := ls.nextQueueId
          let ls := { ls with queues := ls.queues ++ [(qid, [dgram])],
                              nextQueueId := qid + 1 }
          routerSubscribe ls cid qid
        else ls
    else ls

/-- A concrete stand-in for aioquic's `pull_quic_header`: rejects the empty
datagram, otherwise reports an Initial-type long header with destination
connection id `"D"`. -/
def specPullHeader : String → Nat → Option QuicHeader :=
  fun data _ =>
    if data = "" then none
    else some ⟨some 1, packetTypeInitial, "D", "S"⟩

/-- A demo listener state owning connection id `"D"` on queue 7. -/
def demoListener : ListenerState :=
  { table := [("D", 7)], queues := [(7, [])], nextQueueId := 8 }

/-- Modelled from the spec: a minimal aioquic stand-in used to instantiate
the abstract oracle in concrete runs.  Its state is the original
destination connection id it was created with; the server's chosen host
connection id is the fixed byte string `"H"`; processing a datagram yields
no events. -/
def specQuicOracle : QuicOracle String where
  mkServer := fun odcid => odcid
  mkClient := fun _ _ => ""
  odcid := fun q => q
  hostCid := fun _ => "H"
  receiveDatagram := fun q _ _ _ => q
  pullEvents := fun q => (q, [])

/-- A fresh server-side HTTP/3 protocol whose clock has been set. -/
def ht3DemoStart : HTTP3State String := { ht3ServerInit with now := some 0 }

/-- The demo protocol after the first datagram initialized it. -/
def ht3DemoInitialized : HTTP3State String :=
  { ht3DemoStart with quic := some "D", connectionIds := ["D", "H"] }

/-- An HTTP/2 instance that has terminated and drained its event queue. -/
def ht2ExpiredDemo : HTTP2State String :=
  { codec := "", events := [], terminated := true }

/-- An HTTP/1 client that has terminated (h11 side errored by
`send_failed`) and drained its event queue. -/
def ht1ExpiredDemo : HTTP1State :=
  { ht1ClientInit "https" with ourState := .errorState, terminated := true }

/-- An HTTP/3 server that has terminated and drained its event queue. -/
def ht3ExpiredDemo : HTTP3State String :=
  { ht3DemoStart with terminated := true }

/-- A client that has received response headers and whose inbound body has
just completed. -/
def ht1EomDemo : HTTP1State :=
  { ht1ClientInit "https" with
      ourState := .sendBody
      theirState := .done
      eventBuffer := [.headersReceived 1 [(":status", "200")] false] }

/-! ## Helper lemmas -/

/-- `_fetch_events` pulls nothing once the HTTP/1 machine is terminated. -/
lemma ht1FetchEvents_terminated (st : HTTP1State) (outs : List H11Out)
    (hterm : st.terminated = true) : ht1FetchEvents st outs = .ok st := by
  cases outs with
  | nil => rfl
  | cons out rest => simp [ht1FetchEvents, hterm]

/-- `_maybe_start_next_cycle` never touches the event buffer unless the
peer has just switched protocols. -/
lemma ht1MaybeStartNextCycle_eventBuffer (st : HTTP1State)
    (h : st.theirState ≠ .switchedProtocol) :
    (ht1MaybeStartNextCycle st).eventBuffer = st.eventBuffer := by
  simp only [ht1MaybeStartNextCycle]
  split
  · split
    · next hc =>
        exact absurd hc.1 (by simp)
    · rfl
  · split
    · next hc =>
        exact absurd hc.1 h
    · rfl

/-- How the `headers_to_request` scan treats the `host` and
`needTransferEncoding` loop variables: without a `Host` header the host
slot is preserved, without `Content-Length`/`Transfer-Encoding` headers the
chunked-needed flag is preserved, and an empty host slot at the end means
no `Host` header was present. -/
lemma scanRequestHeaders_fields (hs : List Header) (s' : RequestScan) :
    ∀ s : RequestScan, scanRequestHeaders hs s = .ok s' →
      ((∀ q ∈ hs, strLower q.1 ≠ "host") → s'.host = s.host) ∧
      ((∀ q ∈ hs, ¬(strLower q.1 = "content-length" ∨ strLower q.1 = "transfer-encoding")) →
         s'.needTransferEncoding = s.needTransferEncoding) ∧
      (s'.host = none → s.host = none ∧ ∀ q ∈ hs, strLower q.1 ≠ "host") := by
  induction hs with
  | nil =>
    intro s h
    simp only [scanRequestHeaders] at h
    injection h with h
    subst h
    refine ⟨fun _ => rfl, fun _ => rfl, fun hn => ⟨hn, ?_⟩⟩
    intro q hq
    simp at hq
  | cons p rest ih =>
    intro s h
    rcases p with ⟨rawName, value⟩
    simp only [scanRequestHeaders] at h
    have step : ∀ s₂ : RequestScan, scanRequestHeaders rest s₂ = .ok s' →
        s₂.host = s.host → s₂.needTransferEncoding = s.needTransferEncoding →
        strLower rawName ≠ "host" →
        (((∀ q ∈ (rawName, value) :: rest, strLower q.1 ≠ "host") → s'.host = s.host) ∧
         ((∀ q ∈ (rawName, value) :: rest,
             ¬(strLower q.1 = "content-length" ∨ strLower q.1 = "transfer-encoding")) →
           s'.needTransferEncoding = s.needTransferEncoding) ∧
         (s'.host = none → s.host = none ∧
           ∀ q ∈ (rawName, value) :: rest, strLower q.1 ≠ "host")) := by
      intro s₂ h₂ hh hte hnh
      obtain ⟨ih1, ih2, ih3⟩ := ih s₂ h₂
      refine ⟨?_, ?_, ?_⟩
      · intro hall
        rw [← hh]
        exact ih1 (fun q hq => hall q (List.mem_cons_of_mem _ hq))
      · intro hall
        rw [← hte]
        exact ih2 (fun q hq => hall q (List.mem_cons_of_mem _ hq))
      · intro hn
        obtain ⟨h2n, hrest⟩ := ih3 hn
        refine ⟨hh ▸ h2n, ?_⟩
        intro q hq
        rcases List.mem_cons.mp hq with hq | hq
        · rw [hq]
          exact hnh
        · exact hrest q hq
    by_cases hc : startsWithColon (strLower rawName) = true
    · rw [if_pos hc] at h
      have hnotHost : strLower rawName ≠ "host" := by
        intro heq
        rw [heq] at hc
        exact absurd hc (by decide)
      by_cases h1 : strLower rawName = ":method"
      · rw [if_pos h1] at h
        exact step _ h rfl rfl hnotHost
      · rw [if_neg h1] at h
        by_cases h2 : strLower rawName = ":scheme"
        · rw [if_pos h2] at h
          exact step _ h rfl rfl hnotHost
        · rw [if_neg h2] at h
          by_cases h3 : strLower rawName = ":authority"
          · rw [if_pos h3] at h
            exact step _ h rfl rfl hnotHost
          · rw [if_neg h3] at h
            by_cases h4 : strLower rawName = ":path"
            · rw [if_pos h4] at h
              exact step _ h rfl rfl hnotHost
            · rw [if_neg h4] at h
              simp at h
    · rw [if_neg hc] at h
      by_cases hhostc : strLower rawName = "host"
      · rw [if_pos hhostc] at h
        rcases hs0 : s.host with _ | hv
        · simp only [hs0] at h
          obtain ⟨ih1, ih2, ih3⟩ := ih _ h
          refine ⟨?_, ?_, ?_⟩
          · intro hall
            exact absurd hhostc (hall _ (List.mem_cons_self _ _))
          · intro hall
            rw [show s.needTransferEncoding =
              ({ s with host := some value } : RequestScan).needTransferEncoding from rfl]
            exact ih2 (fun q hq => hall q (List.mem_cons_of_mem _ hq))
          · intro hn
            obtain ⟨h2n, _⟩ := ih3 hn
            simp at h2n
        · simp only [hs0] at h
          simp at h
      · rw [if_neg hhostc] at h
        by_cases hcl : strLower rawName = "content-length" ∨ strLower rawName = "transfer-encoding"
        · rw [if_pos hcl] at h
          obtain ⟨ih1, ih2, ih3⟩ := ih _ h
          refine ⟨?_, ?_, ?_⟩
          · intro hall
            exact ih1 (fun q hq => hall q (List.mem_cons_of_mem _ hq))
          · intro hall
            exact absurd hcl (hall _ (List.mem_cons_self _ _))
          · intro hn
            obtain ⟨h2n, hrest⟩ := ih3 hn
            refine ⟨h2n, ?_⟩
            intro q hq
            rcases List.mem_cons.mp hq with hq | hq
            · rw [hq]
              exact hhostc
            · exact hrest q hq
        · rw [if_neg hcl] at h
          exact step _ h rfl rfl hhostc

/-- Looking up after `queuePush`: only the pushed queue id changes, by
appending the datagram. -/
lemma queueLookup_queuePush (queues : List (Nat × List Datagram)) (qid q : Nat)
    (d : Datagram) :
    queueLookup (queuePush queues qid d) q =
      if q = qid then (queueLookup queues q).map (fun l => l ++ [d])
      else queueLookup queues q := by
  induction queues with
  | nil =>
    simp only [queuePush, List.map_nil, queueLookup]
    split <;> rfl
  | cons p rest ih =>
    rcases p with ⟨k, v⟩
    by_cases hk : k = qid
    · subst hk
      have hhead : queuePush ((k, v) :: rest) k d = (k, v ++ [d]) :: queuePush rest k d := by
        simp [queuePush]
      rw [hhead]
      by_cases hq : k = q
      · subst hq
        simp [queueLookup]
      · have hq' : ¬q = k := fun h => hq h.symm
        simp [queueLookup, hq, hq', ih]
    · have hhead : queuePush ((k, v) :: rest) qid d = (k, v) :: queuePush rest qid d := by
        simp [queuePush, hk]
      rw [hhead]
      by_cases hq : k = q
      · subst hq
        have hk' : ¬k = qid := hk
        simp [queueLookup, hk']
      · simp [queueLookup, hq, ih]

/-- Appending a queue entry does not affect ids already present. -/
lemma queueLookup_append_of_some {queues : List (Nat × List Datagram)} {q : Nat}
    {v : List Datagram} (qid : Nat) (d : List Datagram)
    (h : queueLookup queues q = some v) :
    queueLookup (queues ++ [(qid, d)]) q = some v := by
  induction queues with
  | nil => simp [queueLookup] at h
  | cons p rest ih =>
    rcases p with ⟨k, w⟩
    by_cases hq : k = q
    · simp only [queueLookup, if_pos hq] at h
      simp only [List.cons_append, queueLookup, if_pos hq]
      exact h
    · simp only [queueLookup, if_neg hq] at h
      simp only [List.cons_append, queueLookup, if_neg hq]
      exact ih h

/-- Appending a queue entry adds exactly that id when it was absent. -/
lemma queueLookup_append_of_none {queues : List (Nat × List Datagram)} {q : Nat}
    (qid : Nat) (d : List Datagram) (h : queueLookup queues q = none) :
    queueLookup (queues ++ [(qid, d)]) q =
      if q = qid then some d else none := by
  induction queues with
  | nil =>
    by_cases hq : qid = q
    · subst hq
      simp [queueLookup]
    · have hq' : ¬q = qid := fun hh => hq hh.symm
      simp [queueLookup, hq, hq']
  | cons p rest ih =>
    rcases p with ⟨k, w⟩
    by_cases hq : k = q
    · simp [queueLookup, hq] at h
    · simp only [queueLookup, if_neg hq] at h
      simp only [List.cons_append, queueLookup, if_neg hq]
      exact ih h

/-- Appending a routing-table entry adds exactly that id when absent. -/
lemma tableLookup_append_of_none {t : List (String × Nat)} {key : String}
    (cid : String) (qid : Nat) (h : tableLookup t key = none) :
    tableLookup (t ++ [(cid, qid)]) key =
      if key = cid then some qid else none := by
  induction t with
  | nil =>
    by_cases hq : cid = key
    · subst hq
      simp [tableLookup]
    · have hq' : ¬key = cid := fun hh => hq hh.symm
      simp [tableLookup, hq, hq']
  | cons p rest ih =>
    rcases p with ⟨k, v⟩
    by_cases hq : k = key
    · simp [tableLookup, hq] at h
    · simp only [tableLookup, if_neg hq] at h
      simp only [List.cons_append, tableLookup, if_neg hq]
      exact ih h

/-- Case analysis on one `QUICListener.serve` iteration: the state is
unchanged, or the datagram was routed to the subscribed queue, or a fresh
queue was created and subscribed for the destination id. -/
lemma serveStep_cases (pull : String → Nat → Option QuicHeader) (cidLen : Nat)
    (supported : List Nat) (ls : ListenerState) (dgram : Datagram) :
    serveStep pull cidLen supported ls dgram = ls ∨
    (∃ info qid, sniffPacket pull dgram.1 cidLen = .ok info ∧
       tableLookup ls.table info.destinationConnectionId = some qid ∧
       serveStep pull cidLen supported ls dgram =
         { ls with queues := queuePush ls.queues qid dgram }) ∨
    (∃ info, sniffPacket pull dgram.1 cidLen = .ok info ∧
       tableLookup ls.table info.destinationConnectionId = none ∧
       serveStep pull cidLen supported ls dgram =
         { table := ls.table ++ [(info.destinationConnectionId, ls.nextQueueId)],
           queues := ls.queues ++ [(ls.nextQueueId, [dgram])],
           nextQueueId := ls.nextQueueId + 1 }) := by
  rcases hsniff : sniffPacket pull dgram.1 cidLen with e | info
  · left
    simp [serveStep, hsniff]
  · rcases htab : tableLookup ls.table info.destinationConnectionId with _ | qid
    · by_cases hinit : info.isInitialPacket
      · rcases hv : info.version with _ | v
        · left
          simp [serveStep, hsniff, routerRoute, htab, hinit, hv]
        · by_cases hsup : v ∈ supported
          · right; right
            refine ⟨info, rfl, htab, ?_⟩
            simp [serveStep, hsniff, routerRoute, routerSubscribe, htab, hinit, hv, hsup]
          · left
            simp [serveStep, hsniff, routerRoute, htab, hinit, hv, hsup]
      · left
        simp [serveStep, hsniff, routerRoute, htab, hinit]
    · right; left
      refine ⟨info, qid, rfl, htab, ?_⟩
      simp [serveStep, hsniff, routerRoute, htab]

/-- Membership after inserting into the connection-id set. -/
lemma mem_cidInsert_self (l : List String) (a : String) : a ∈ cidInsert l a := by
  unfold cidInsert
  split
  · assumption
  · exact List.mem_append_right l (List.mem_singleton.mpr rfl)

/-- `cidInsert` preserves membership. -/
lemma mem_cidInsert_of_mem (l : List String) (a b : String) (h : a ∈ l) :
    a ∈ cidInsert l b := by
  unfold cidInsert
  split
  · exact h
  · exact List.mem_append_left _ h

/-! ## Claim theorems -/

/-- **C10.** Calling `bytes_received` with an empty byte string on an
HTTP/1 or HTTP/2 protocol instance is a no-op: it is not interpreted as
end-of-file, produces no events, buffers no outbound bytes, and leaves all
protocol state unchanged. -/
theorem emptyBytesReceivedIsNoOp :
    (∀ (st : HTTP1State) (codecOut : List H11Out),
       ht1BytesReceived st "" codecOut = .ok st) ∧
    (∀ (σ : Type) (c : H2Codec σ) (st : HTTP2State σ),
       ht2BytesReceived c st "" = st) := by
  constructor
  · intro st codecOut
    simp [ht1BytesReceived]
  · intro σ c st
    simp [ht2BytesReceived]

/-- **C9.** HTTP/1 API misuse -- `submit_headers`/`submit_data` with a
stream id different from the current one, or `get_available_stream_id` on a
server-role or non-idle connection -- fails synchronously with a structured
error.  The operations return `Except.error` without producing a successor
state, so the caller's state is untouched: no event is appended and
`is_available`/`has_expired` are unchanged by the failed call. -/
theorem ht1ApiMisuseFailsSynchronously (st : HTTP1State) :
    (∀ streamId headers endStream, streamId ≠ st.currentStreamId →
       ht1SubmitHeaders st streamId headers endStream = .error "Invalid stream ID.") ∧
    (∀ streamId data endStream, streamId ≠ st.currentStreamId →
       ht1SubmitData st streamId data endStream = .error "Invalid stream ID.") ∧
    (st.role = .server →
       ht1GetAvailableStreamId st =
         .error ("Cannot generate a new stream ID because at the server side. " ++
           "In HTTP/1.1, only clients can initiate information interchange.")) ∧
    (ht1IsAvailable st = false → st.role = .client →
       ht1GetAvailableStreamId st =
         .error ("Cannot generate a new stream ID because the connection is not idle. " ++
      "HTTP/1.1 is not multiplexed and we do not support HTTP pipelining.")) := by
  refine ⟨?_, ?_, ?_, ?_⟩
  · intro streamId headers endStream hid
    simp [ht1SubmitHeaders, hid]
  · intro streamId data endStream hid
    simp [ht1SubmitData, hid]
  · intro hrole
    simp [ht1GetAvailableStreamId, hrole]
  · intro havail hrole
    simp [ht1GetAvailableStreamId, hrole, havail]

/-- Witness for **C9** at a fresh server connection and a wrong stream id. -/
theorem ht1ApiMisuseFailsSynchronously_witness :
    ht1SubmitHeaders (ht1ServerInit "http") 2 [] true = .error "Invalid stream ID." ∧
    ht1GetAvailableStreamId (ht1ServerInit "http") =
      .error ("Cannot generate a new stream ID because at the server side. " ++
      "In HTTP/1.1, only clients can initiate information interchange.") :=
  ⟨(ht1ApiMisuseFailsSynchronously (ht1ServerInit "http")).1 2 [] true (by decide),
   (ht1ApiMisuseFailsSynchronously (ht1ServerInit "http")).2.2.1 (by decide)⟩

/-- **C1, counterexample.** The claim says that once `has_expired()` is
true, every subsequent `next_event()` call returns nothing and no further
events are produced.  On HTTP/2 a single `connection_lost()` on a fresh
instance makes `has_expired()` true while the terminal
`ConnectionTerminated` event is still queued, so the next `next_event()`
call returns that event.  On HTTP/3 the same holds, and moreover
`connection_lost` is unguarded: a second call after `has_expired()` is
already true appends a second `ConnectionTerminated` event. -/
theorem expiredProtocolCounterexample :
    (ht2HasExpired (ht2ConnectionLost (ht2Init "")) = true ∧
     (ht2NextEvent (ht2ConnectionLost (ht2Init ""))).1 =
       some (.connectionTerminated 0 none)) ∧
    (ht3HasExpired (ht3ConnectionLost ht3DemoStart) = true ∧
     (ht3NextEvent (ht3ConnectionLost ht3DemoStart)).1 =
       some (.connectionTerminated 0 none) ∧
     (ht3ConnectionLost (ht3ConnectionLost ht3DemoStart)).events =
       [.connectionTerminated 0 none, .connectionTerminated 0 none]) := by
  decide

/-- **C1, amended.** Once `has_expired()` is true and the events buffered
up to termination (ending with `ConnectionTerminated`) have been drained:
on HTTP/2, `is_available()` returns false, `next_event()` returns nothing,
further `connection_lost`/`eof_received` calls are no-ops, input the codec
rejects appends no events, a send the codec rejects fails without
producing output or events, and `bytes_to_send` returns only bytes the
codec already buffered; on HTTP/1, outside the switched-protocol (CONNECT
tunnel) state, `next_event()` returns nothing, a further `connection_lost`
is a no-op, `bytes_received` and `eof_received` append no events, and the
`connection_lost` that makes `has_expired()` true also makes
`is_available()` false; on HTTP/3, `is_available()` returns false and
`next_event()` returns nothing (its unguarded `connection_lost` is the
counterexample's business). -/
theorem expiredProtocolQuiescent {σ κ : Type} (c : H2Codec σ)
    (st : HTTP2State σ) (st1 : HTTP1State) (st3 : HTTP3State κ)
    (hterm : st.terminated = true) (hdrained : st.events = [])
    (hterm1 : st1.terminated = true) (hdrained1 : st1.eventBuffer = [])
    (hns1 : st1.theirState ≠ .switchedProtocol)
    (hterm3 : st3.terminated = true) (hdrained3 : st3.events = []) :
    (ht2IsAvailable st = false ∧
     (ht2NextEvent st).1 = none ∧
     ht2ConnectionLost st = st ∧
     ht2EofReceived st = st ∧
     (∀ data code msg σ',
        c.receiveData st.codec data = (σ', .error (code, msg)) →
        (ht2BytesReceived c st data).events = [] ∧
        (ht2BytesReceived c st data).terminated = true) ∧
     (∀ streamId headers endStream msg,
        c.sendHeaders st.codec streamId headers endStream = .error msg →
        ht2SubmitHeaders c st streamId headers endStream = .error msg) ∧
     (ht2BytesToSend c st).1 = (c.dataToSend st.codec).2) ∧
    (ht1HasExpired st1 = true ∧
     (ht1NextEvent st1).1 = none ∧
     ht1ConnectionLost st1 = st1 ∧
     (∀ data codecOut st', ht1BytesReceived st1 data codecOut = .ok st' →
        st'.eventBuffer = []) ∧
     (∀ codecOut st', ht1EofReceived st1 codecOut = .ok st' →
        st'.eventBuffer = [])) ∧
    (∀ su : HTTP1State, su.terminated = false →
       ht1HasExpired (ht1ConnectionLost su) = true ∧
       ht1IsAvailable (ht1ConnectionLost su) = false) ∧
    (ht3IsAvailable st3 = false ∧
     (ht3NextEvent st3).1 = none) := by
  have hrecv0 : ∀ codecOut st', ht1DataReceived st1 codecOut = .ok st' →
      st'.eventBuffer = [] := by
    intro codecOut st' hrecv
    simp only [ht1DataReceived, ht1FetchEvents_terminated st1 codecOut hterm1,
      Except.map] at hrecv
    injection hrecv with hrecv
    rw [← hrecv, ht1MaybeStartNextCycle_eventBuffer st1 hns1]
    exact hdrained1
  refine ⟨⟨?_, ?_, ?_, ?_, ?_, ?_, ?_⟩, ⟨hterm1, ?_, ?_, ?_, ?_⟩, ?_, ?_, ?_⟩
  · simp [ht2IsAvailable, hterm]
  · simp [ht2NextEvent, hdrained]
  · simp [ht2ConnectionLost, ht2Terminate, hterm]
  · simp [ht2EofReceived, ht2Terminate, hterm]
  · intro data code msg σ' hrecv
    by_cases hdata : data = ""
    · subst hdata
      simp [ht2BytesReceived, hdrained, hterm]
    · simp only [ht2BytesReceived, if_neg hdata, hrecv]
      simp [ht2Terminate, hterm, hdrained]
  · intro streamId headers endStream msg hsend
    simp [ht2SubmitHeaders, hsend, Except.map]
  · rcases h : c.dataToSend st.codec with ⟨codec, payload⟩
    simp [ht2BytesToSend, h]
  · simp [ht1NextEvent, hdrained1]
  · simp [ht1ConnectionLost, hns1, hterm1]
  · intro data codecOut st' hrecv
    by_cases hdata : data = ""
    · rw [hdata] at hrecv
      simp only [ht1BytesReceived, if_pos rfl] at hrecv
      injection hrecv with hrecv
      rw [← hrecv]
      exact hdrained1
    · simp only [ht1BytesReceived, if_neg hdata, if_neg hns1] at hrecv
      exact hrecv0 codecOut st' hrecv
  · intro codecOut st' hrecv
    simp only [ht1EofReceived, if_neg hns1] at hrecv
    exact hrecv0 codecOut st' hrecv
  · intro su hsu
    by_cases hsw : su.theirState = .switchedProtocol
    · constructor
      · simp [ht1HasExpired, ht1ConnectionLost, hsw, ht1Terminate]
      · simp [ht1IsAvailable, ht1ConnectionLost, hsw, ht1Terminate]
    · have hnt : ¬su.terminated = true := by simp [hsu]
      constructor
      · simp [ht1HasExpired, ht1ConnectionLost, hsw, hnt, ht1Terminate]
      · simp [ht1IsAvailable, ht1ConnectionLost, hsw, hnt, ht1Terminate]
  · simp [ht3IsAvailable, hterm3]
  · simp [ht3NextEvent, hdrained3]

/-- Witness for **C1 (amended)** at drained terminated instances of all
three versions, with the spec-modelled h2 codec rejecting further input. -/
theorem expiredProtocolQuiescent_witness :
    ht2IsAvailable ht2ExpiredDemo = false ∧
    (ht2BytesReceived specH2Codec ht2ExpiredDemo "GET / HTTP/1.1\r\n").events = [] ∧
    ht1ConnectionLost ht1ExpiredDemo = ht1ExpiredDemo ∧
    ht1IsAvailable (ht1ConnectionLost (ht1ClientInit "https")) = false ∧
    ht3IsAvailable ht3ExpiredDemo = false := by
  have h := expiredProtocolQuiescent specH2Codec ht2ExpiredDemo ht1ExpiredDemo
    ht3ExpiredDemo rfl rfl rfl rfl (by decide) rfl rfl
  exact ⟨h.1.1,
    (h.1.2.2.2.2.1 "GET / HTTP/1.1\r\n" 1 "Invalid HTTP/2 preface."
      goawayProtocolError (by decide)).1,
    h.2.1.2.2.1,
    (h.2.2.1 (ht1ClientInit "https") rfl).2,
    h.2.2.2.1⟩

/-- **C5.** When HTTP/2 `bytes_received` is fed input the codec rejects
with a `ProtocolError`, the protocol sets its terminated flag, appends
exactly one `ConnectionTerminated(error_code, message)` event carrying the
codec's error code, and the next `bytes_to_send()` call returns exactly the
bytes the codec buffered while rejecting (its GOAWAY frame). -/
theorem ht2CodecErrorTerminates {σ : Type} (c : H2Codec σ) (st : HTTP2State σ)
    (data : String) (code : Nat) (msg : String) (codec' : σ)
    (hterm : st.terminated = false) (hdata : data ≠ "")
    (hrecv : c.receiveData st.codec data = (codec', .error (code, msg))) :
    ht2BytesReceived c st data =
      { codec := codec',
        events := st.events ++ [.connectionTerminated code (some msg)],
        terminated := true } ∧
    (ht2BytesToSend c (ht2BytesReceived c st data)).1 = (c.dataToSend codec').2 := by
  have h1 : ht2BytesReceived c st data =
      { codec := codec',
        events := st.events ++ [.connectionTerminated code (some msg)],
        terminated := true } := by
    simp only [ht2BytesReceived, if_neg hdata, hrecv]
    simp [ht2Terminate, hterm]
  refine ⟨h1, ?_⟩
  rw [h1]
  rcases h : c.dataToSend codec' with ⟨codec'', payload⟩
  simp [ht2BytesToSend, h]

/-- Witness for **C5**: a server fed a non-HTTP/2 client preface through
the spec-modelled codec terminates with `protocol_error` (0x01) and the
GOAWAY frame is what the next `bytes_to_send` returns. -/
theorem ht2CodecErrorTerminates_witness :
    ht2BytesReceived specH2Codec (ht2Init "") "GET / HTTP/1.1\r\n" =
      { codec := goawayProtocolError,
        events := [.connectionTerminated 1 (some "Invalid HTTP/2 preface.")],
        terminated := true } ∧
    (ht2BytesToSend specH2Codec
        (ht2BytesReceived specH2Codec (ht2Init "") "GET / HTTP/1.1\r\n")).1 =
      goawayProtocolError := by
  have h := ht2CodecErrorTerminates specH2Codec (ht2Init "") "GET / HTTP/1.1\r\n"
    1 "Invalid HTTP/2 preface." goawayProtocolError rfl (by decide) (by decide)
  exact ⟨h.1, h.2⟩

/-- **C8, counterexample.** The claim says `connection_lost` twice is
equivalent to calling it once for every connection.  On HTTP/1 in the
switched-protocol (CONNECT tunnel) state the call is unguarded: a second
`connection_lost` appends a second `ConnectionTerminated` event. -/
theorem connectionLostTwiceCounterexample :
    (ht1ConnectionLost (ht1ConnectionLost
        { ht1ClientInit "https" with theirState := .switchedProtocol, switched := true
        })).eventBuffer.length = 2 ∧
    (ht1ConnectionLost
        { ht1ClientInit "https" with theirState := .switchedProtocol, switched := true
        }).eventBuffer.length = 1 := by
  decide

/-- **C8, amended.** Calling `open` twice or `close` twice on a connection
is equivalent to calling it once, and so is `connection_lost` twice -- on
HTTP/2 always, and on HTTP/1 whenever the peer is not in the
switched-protocol (CONNECT tunnel) state, where a second `connection_lost`
appends a duplicate `ConnectionTerminated` event. -/
theorem lifecycleIdempotent :
    (∀ (π : Type) (ops : ProtoOps π) (st : ConnState π),
       connOpen ops (connOpen ops st) = connOpen ops st) ∧
    (∀ (π : Type) (ops : ProtoOps π) (st : ConnState π),
       connAclose ops (connAclose ops st) = connAclose ops st) ∧
    (∀ (σ : Type) (st : HTTP2State σ),
       ht2ConnectionLost (ht2ConnectionLost st) = ht2ConnectionLost st) ∧
    (∀ st : HTTP1State, st.theirState ≠ .switchedProtocol →
       ht1ConnectionLost (ht1ConnectionLost st) = ht1ConnectionLost st) := by
  refine ⟨?_, ?_, ?_, ?_⟩
  · intro π ops st
    by_cases h : st.opened
    · simp [connOpen, h]
    · rcases hb : ops.bytesToSend st.protocol with ⟨p, payload⟩
      simp [connOpen, connFlush, h, hb]
  · intro π ops st
    by_cases h : st.closed
    · simp [connAclose, h]
    · rcases hb : ops.bytesToSend (ops.submitClose st.protocol) with ⟨p, payload⟩
      simp [connAclose, connFlush, h, hb]
  · intro σ st
    by_cases h : st.terminated
    · simp [ht2ConnectionLost, ht2Terminate, h]
    · simp [ht2ConnectionLost, ht2Terminate, h]
  · intro st h
    by_cases ht : st.terminated
    · simp [ht1ConnectionLost, ht1Terminate, h, ht]
    · simp [ht1ConnectionLost, ht1Terminate, h, ht]

/-- Witness for **C8 (amended)**: `connection_lost` twice on a fresh HTTP/1
client equals calling it once. -/
theorem lifecycleIdempotent_witness :
    ht1ConnectionLost (ht1ConnectionLost (ht1ClientInit "https")) =
      ht1ConnectionLost (ht1ClientInit "https") :=
  lifecycleIdempotent.2.2.2 (ht1ClientInit "https") (by decide)

/-- **C7.** For every datagram processed by the QUIC demultiplexer: at most
one per-connection queue receives it; a queue that receives it is exactly
the queue to which the sniffed destination connection id is subscribed
(already subscribed for the routed case; freshly subscribed for the
accepted-Initial case); a datagram whose header fails to parse is dropped
without routing; and when the destination id is already owned by a queue,
no other queue can receive the datagram. -/
theorem quicDemuxRoutesToOwnerOnly (pull : String → Nat → Option QuicHeader)
    (cidLen : Nat) (supported : List Nat) (ls : ListenerState) (dgram : Datagram) :
    (∀ q1 q2,
       queueLookup (serveStep pull cidLen supported ls dgram).queues q1 ≠
         queueLookup ls.queues q1 →
       queueLookup (serveStep pull cidLen supported ls dgram).queues q2 ≠
         queueLookup ls.queues q2 → q1 = q2) ∧
    (∀ q,
       queueLookup (serveStep pull cidLen supported ls dgram).queues q ≠
         queueLookup ls.queues q →
       ∃ info, sniffPacket pull dgram.1 cidLen = .ok info ∧
         tableLookup (serveStep pull cidLen supported ls dgram).table
           info.destinationConnectionId = some q ∧
         queueLookup (serveStep pull cidLen supported ls dgram).queues q =
           some ((queueLookup ls.queues q).getD [] ++ [dgram])) ∧
    (∀ e, sniffPacket pull dgram.1 cidLen = .error e →
       serveStep pull cidLen supported ls dgram = ls) ∧
    (∀ info q0, sniffPacket pull dgram.1 cidLen = .ok info →
       tableLookup ls.table info.destinationConnectionId = some q0 →
       ∀ q,
         queueLookup (serveStep pull cidLen supported ls dgram).queues q ≠
           queueLookup ls.queues q → q = q0) := by
  have hcases := serveStep_cases pull cidLen supported ls dgram
  refine ⟨?_, ?_, ?_, ?_⟩
  · intro q1 q2 h1 h2
    rcases hcases with heq | ⟨info, qid, hsniff, htab, heq⟩ | ⟨info, hsniff, htab, heq⟩
    · rw [heq] at h1
      exact absurd rfl h1
    · rw [heq] at h1 h2
      simp only [queueLookup_queuePush] at h1 h2
      by_cases hq1 : q1 = qid
      · by_cases hq2 : q2 = qid
        · rw [hq1, hq2]
        · rw [if_neg hq2] at h2
          exact absurd rfl h2
      · rw [if_neg hq1] at h1
        exact absurd rfl h1
    · rw [heq] at h1 h2
      simp only at h1 h2
      rcases hl1 : queueLookup ls.queues q1 with _ | v1
      · rcases hl2 : queueLookup ls.queues q2 with _ | v2
        · rw [hl1, queueLookup_append_of_none _ _ hl1] at h1
          rw [hl2, queueLookup_append_of_none _ _ hl2] at h2
          by_cases hq1 : q1 = ls.nextQueueId
          · by_cases hq2 : q2 = ls.nextQueueId
            · rw [hq1, hq2]
            · rw [if_neg hq2] at h2
              exact absurd rfl h2
          · rw [if_neg hq1] at h1
            exact absurd rfl h1
        · rw [hl2, queueLookup_append_of_some _ _ hl2] at h2
          exact absurd rfl h2
      · rw [hl1, queueLookup_append_of_some _ _ hl1] at h1
        exact absurd rfl h1
  · intro q hq
    rcases hcases with heq | ⟨info, qid, hsniff, htab, heq⟩ | ⟨info, hsniff, htab, heq⟩
    · rw [heq] at hq
      exact absurd rfl hq
    · rw [heq] at hq ⊢
      simp only [queueLookup_queuePush] at hq ⊢
      by_cases hqid : q = qid
      · subst hqid
        rcases hl : queueLookup ls.queues q with _ | v
        · rw [if_pos rfl, hl] at hq
          exact absurd rfl hq
        · refine ⟨info, hsniff, htab, ?_⟩
          rw [if_pos rfl]
          rfl
      · rw [if_neg hqid] at hq
        exact absurd rfl hq
    · rw [heq] at hq ⊢
      rcases hl : queueLookup ls.queues q with _ | v
      · rw [queueLookup_append_of_none ls.nextQueueId [dgram] hl, hl] at hq
        by_cases hqid : q = ls.nextQueueId
        · refine ⟨info, hsniff, ?_, ?_⟩
          · rw [tableLookup_append_of_none _ _ htab]
            simp [hqid]
          · rw [queueLookup_append_of_none ls.nextQueueId [dgram] hl, if_pos hqid]
            rfl
        · rw [if_neg hqid] at hq
          exact absurd rfl hq
      · rw [queueLookup_append_of_some ls.nextQueueId [dgram] hl, hl] at hq
        exact absurd rfl hq
  · intro e hsniff
    simp [serveStep, hsniff]
  · intro info q0 hsniff htab q hq
    rcases hcases with heq | ⟨info', qid, hsniff', htab', heq⟩ | ⟨info', hsniff', htab', heq⟩
    · rw [heq] at hq
      exact absurd rfl hq
    · rw [hsniff] at hsniff'
      injection hsniff' with hinfo
      subst hinfo
      rw [htab] at htab'
      injection htab' with hqid
      subst hqid
      rw [heq] at hq
      simp only [queueLookup_queuePush] at hq
      by_cases hqq : q = q0
      · exact hqq
      · rw [if_neg hqq] at hq
        exact absurd rfl hq
    · rw [hsniff] at hsniff'
      injection hsniff' with hinfo
      subst hinfo
      rw [htab] at htab'
      exact absurd htab' (by simp)

/-- Witness for **C7**: a parse failure is dropped, and a routed datagram
lands on the queue that owns its destination id. -/
theorem quicDemuxRoutesToOwnerOnly_witness :
    serveStep specPullHeader 8 [1] demoListener ("", ("peer", 1)) = demoListener ∧
    ∃ info, sniffPacket specPullHeader ("pkt", ("peer", 1)).1 8 = .ok info ∧
      tableLookup (serveStep specPullHeader 8 [1] demoListener ("pkt", ("peer", 1))).table
        info.destinationConnectionId = some 7 ∧
      queueLookup (serveStep specPullHeader 8 [1] demoListener ("pkt", ("peer", 1))).queues 7 =
        some ((queueLookup demoListener.queues 7).getD [] ++ [("pkt", ("peer", 1))]) := by
  constructor
  · exact (quicDemuxRoutesToOwnerOnly specPullHeader 8 [1] demoListener
      ("", ("peer", 1))).2.2.1 "Invalid header" (by decide)
  · exact (quicDemuxRoutesToOwnerOnly specPullHeader 8 [1] demoListener
      ("pkt", ("peer", 1))).2.1 7 (by decide)

/-- **C6, counterexample.** The claim says a datagram shorter than 1200
bytes that would otherwise be treated as an Initial packet is dropped by
the server-side HTTP/3 protocol and does not initialize the connection.
`HTTP3ProtocolImpl.datagram_received` performs no length check (the drop
happens in the QUIC listener): a 50-byte first datagram whose long header
parses as Initial-typed initializes the QUIC connection. -/
theorem ht3ShortDatagramCounterexample :
    (String.mk (List.replicate 50 'x')).length < 1200 ∧
    sniffPacket specPullHeader (String.mk (List.replicate 50 'x')) 8 =
      .ok ⟨some 1, packetTypeInitial, "D", "S", 50⟩ ∧
    PacketInfo.isInitialPacket ⟨some 1, packetTypeInitial, "D", "S", 50⟩ = false ∧
    ∃ st' : HTTP3State String,
      ht3DatagramReceived specQuicOracle specPullHeader 8 ht3DemoStart
        (String.mk (List.replicate 50 'x'), ("peer", 1234)) = .ok st' ∧
      st'.quic = some "D" ∧ "D" ∈ st'.connectionIds := by
  refine ⟨by decide, by decide, by decide, ?_⟩
  exact ⟨ht3DemoInitialized, by decide, by decide, by decide⟩

/-- **C6, amended.** On a server-side HTTP/3 protocol, the first inbound
datagram whose QUIC long header parses initializes the QUIC connection
(there is no length check at this layer; the listener only spawns
connections for Initial packets of length at least 1200): the sniffed
destination connection id becomes the original destination connection id,
and both that id and the server's chosen host connection id are members of
the connection-id set of the state the packet is then processed in. -/
theorem ht3ServerFirstDatagramInit {κ : Type} (o : QuicOracle κ)
    (pull : String → Nat → Option QuicHeader) (cidLen : Nat)
    (st : HTTP3State κ) (dgram : Datagram) (info : PacketInfo) (t : Nat)
    (hquic : st.quic = none) (hsrv : st.isClient = false) (hnow : st.now = some t)
    (hsniff : sniffPacket pull dgram.1 cidLen = .ok info)
    (hodcid : ∀ x, o.odcid (o.mkServer x) = x) :
    ∃ q cids,
      ht3ServerConnect o pull cidLen st dgram.1 = .ok (q, cids) ∧
      q = o.mkServer info.destinationConnectionId ∧
      o.odcid q = info.destinationConnectionId ∧
      info.destinationConnectionId ∈ cids ∧
      o.hostCid q ∈ cids ∧
      ht3DatagramReceived o pull cidLen st dgram =
        .ok (ht3ProcessDatagram o
              { st with quic := some q, connectionIds := cids } q dgram.1 dgram.2 t) := by
  have hconn : ht3ServerConnect o pull cidLen st dgram.1 =
      .ok (o.mkServer info.destinationConnectionId,
        cidInsert (cidInsert st.connectionIds
            (o.odcid (o.mkServer info.destinationConnectionId)))
          (o.hostCid (o.mkServer info.destinationConnectionId))) := by
    unfold ht3ServerConnect
    rw [hsniff]
  refine ⟨o.mkServer info.destinationConnectionId, _, hconn, rfl, hodcid _, ?_, ?_, ?_⟩
  · rw [hodcid]
    exact mem_cidInsert_of_mem _ _ _ (mem_cidInsert_self _ _)
  · exact mem_cidInsert_self _ _
  · unfold ht3DatagramReceived
    simp only [hquic, hsrv, hnow, hconn, Option.isNone_none, and_self, if_true,
      eq_self_iff_true]

set_option maxRecDepth 20000 in
/-- Witness for **C6 (amended)**: a 1200-byte Initial datagram with
destination connection id `"D"` initializes a fresh server-side protocol;
both `"D"` and the host id `"H"` are in the connection-id set before
processing. -/
theorem ht3ServerFirstDatagramInit_witness :
    ∃ (q : String) (cids : List String),
      ht3ServerConnect specQuicOracle specPullHeader 8 ht3DemoStart
        (String.mk (List.replicate 1200 'x')) = .ok (q, cids) ∧
      q = specQuicOracle.mkServer "D" ∧
      specQuicOracle.odcid q = "D" ∧
      "D" ∈ cids ∧
      specQuicOracle.hostCid q ∈ cids ∧
      ht3DatagramReceived specQuicOracle specPullHeader 8 ht3DemoStart
        (String.mk (List.replicate 1200 'x'), ("peer", 1234)) =
        .ok (ht3ProcessDatagram specQuicOracle
              { ht3DemoStart with quic := some q, connectionIds := cids }
              q (String.mk (List.replicate 1200 'x')) ("peer", 1234) 0) :=
  ht3ServerFirstDatagramInit specQuicOracle specPullHeader 8 ht3DemoStart
    (String.mk (List.replicate 1200 'x'), ("peer", 1234))
    ⟨some 1, packetTypeInitial, "D", "S", 1200⟩ 0
    rfl rfl rfl (by decide) (fun x => rfl)

/-- **C4.** When the HTTP/1 inbound message body completes (the codec
yields `EndOfMessage`): if the most recent buffered inbound event is a
`HeadersReceived` or `DataReceived`, its `end_stream` flag is set instead
of emitting a new event; otherwise an empty
`DataReceived(current_stream_id)` with `end_stream=true` is appended;
except that while the peer is in might-switch-protocol state, `end_stream`
is not set and the stream stays open. -/
theorem ht1EndOfMessageEmulation (st : HTTP1State)
    (hns : st.theirState ≠ .switchedProtocol) :
    (∀ e, st.eventBuffer.getLast? = some e → isHeadersOrData e = true →
       st.theirState ≠ .mightSwitchProtocol →
       (ht1HandleEndOfMessage st).eventBuffer =
         st.eventBuffer.dropLast ++ [setEndStream e]) ∧
    ((∀ e, st.eventBuffer.getLast? = some e → isHeadersOrData e = false) →
       st.theirState ≠ .mightSwitchProtocol →
       (ht1HandleEndOfMessage st).eventBuffer =
         st.eventBuffer ++ [.dataReceived st.currentStreamId "" true]) ∧
    (st.theirState = .mightSwitchProtocol →
       (∀ e, st.eventBuffer.getLast? = some e → isHeadersOrData e = true →
          (ht1HandleEndOfMessage st).eventBuffer = st.eventBuffer) ∧
       ((∀ e, st.eventBuffer.getLast? = some e → isHeadersOrData e = false) →
          (ht1HandleEndOfMessage st).eventBuffer =
            st.eventBuffer ++ [.dataReceived st.currentStreamId "" false])) := by
  have hbuf : ∀ buf, (ht1MaybeStartNextCycle { st with eventBuffer := buf }).eventBuffer
      = buf := by
    intro buf
    exact ht1MaybeStartNextCycle_eventBuffer { st with eventBuffer := buf } hns
  refine ⟨?_, ?_, ?_⟩
  · intro e hlast hhd hnm
    simp [ht1HandleEndOfMessage, hlast, hhd, hnm, hbuf]
  · intro hnohd hnm
    rcases hlast : st.eventBuffer.getLast? with _ | e
    · simp [ht1HandleEndOfMessage, hlast, hnm, List.getLast?_concat,
        List.dropLast_concat, hbuf, setEndStream]
    · have he := hnohd e hlast
      simp [ht1HandleEndOfMessage, hlast, he, hnm, List.getLast?_concat,
        List.dropLast_concat, hbuf, setEndStream]
  · intro hms
    constructor
    · intro e hlast hhd
      simp [ht1HandleEndOfMessage, hlast, hhd, hms, hbuf]
      exact ht1MaybeStartNextCycle_eventBuffer _ (by simp)
    · intro hnohd
      rcases hlast : st.eventBuffer.getLast? with _ | e
      · simp [ht1HandleEndOfMessage, hlast, hms, hbuf]
        exact ht1MaybeStartNextCycle_eventBuffer _ (by simp)
      · have he := hnohd e hlast
        simp [ht1HandleEndOfMessage, hlast, he, hms, hbuf]
        exact ht1MaybeStartNextCycle_eventBuffer _ (by simp)

/-- Witness for **C4**: a buffered `HeadersReceived` gets its `end_stream`
flag set in place when the body completes. -/
theorem ht1EndOfMessageEmulation_witness :
    (ht1HandleEndOfMessage ht1EomDemo).eventBuffer =
      [.headersReceived 1 [(":status", "200")] true] :=
  (ht1EndOfMessageEmulation ht1EomDemo (by decide)).1
    (.headersReceived 1 [(":status", "200")] false) (by decide) (by decide) (by decide)

/-- **C2.** For an outbound HTTP/1 request (non-CONNECT, all required
pseudo headers present): if the header list has no `Host` header (the
scan's host slot is empty, which the first conjunct shows is equivalent), a
`Host` header valued `:authority` is synthesized as the first regular
header; if a `Host` header equal to `:authority` is present, no header is
added; if it differs, the submission fails synchronously with the
structured `Host header does not match :authority.` error and
`submit_headers` serializes nothing. -/
theorem ht1HostSynthesis (hs : List Header) (hasContent : Bool) (s : RequestScan)
    (method authority : String)
    (hscan : scanRequestHeaders hs { needTransferEncoding := hasContent } = .ok s)
    (hm : s.method = some method) (ha : s.authority = some authority)
    (hnc : method ≠ "CONNECT") (hsch : s.scheme.isSome = true)
    (hp : s.path.isSome = true) :
    ((s.host = none ↔ ∀ q ∈ hs, strLower q.1 ≠ "host") ∧
     (s.host = none →
        ∃ target, headersToRequest hs hasContent =
          .ok ⟨method, ("Host", authority) ::
            (if s.needTransferEncoding then
               s.regularHeaders ++ [("Transfer-Encoding", "chunked")]
             else s.regularHeaders), target⟩)) ∧
    (s.host = some authority →
       ∃ target, headersToRequest hs hasContent =
         .ok ⟨method,
           (if s.needTransferEncoding then
              s.regularHeaders ++ [("Transfer-Encoding", "chunked")]
            else s.regularHeaders), target⟩) ∧
    (∀ hv, s.host = some hv → hv ≠ authority →
       headersToRequest hs hasContent =
         .error "Host header does not match :authority." ∧
       ∀ st streamId endStream, st.role = .client → streamId = st.currentStreamId →
         (!endStream) = hasContent →
         ht1SubmitHeaders st streamId hs endStream =
           .error "Host header does not match :authority.") := by
  obtain ⟨fields1, fields2, fields3⟩ := scanRequestHeaders_fields hs s _ hscan
  obtain ⟨sch, hsch'⟩ := Option.isSome_iff_exists.mp hsch
  obtain ⟨pathv, hpath⟩ := Option.isSome_iff_exists.mp hp
  refine ⟨⟨⟨fun hn => (fields3 hn).2, fun hall => fields1 hall⟩, ?_⟩, ?_, ?_⟩
  · intro hhost
    refine ⟨pathv, ?_⟩
    simp only [headersToRequest, hscan, hm, ha, hnc, hsch', hpath, hhost, if_false,
      ite_false]
  · intro hhost
    refine ⟨pathv, ?_⟩
    simp only [headersToRequest, hscan, hm, ha, hnc, hsch', hpath, hhost, if_false,
      ite_false, ite_true, if_true, if_pos rfl]
  · intro hv hhost hne
    have herr : headersToRequest hs hasContent =
        .error "Host header does not match :authority." := by
      simp only [headersToRequest, hscan, hm, ha, hnc, hsch', hpath, hhost, hne,
        if_false, ite_false]
    refine ⟨herr, ?_⟩
    intro st streamId endStream hrole hsid hes
    have hsid' : ¬streamId ≠ st.currentStreamId := by simp [hsid]
    simp only [ht1SubmitHeaders, if_neg hsid', hrole, hes, herr, Except.map]

/-- Witness for **C2**: a request whose `Host` header (`other.com`) differs
from `:authority` (`e.com`) fails with the structured mismatch error. -/
theorem ht1HostSynthesis_witness :
    headersToRequest
      [(":method", "GET"), (":scheme", "https"), (":authority", "e.com"),
       (":path", "/"), ("host", "other.com")] false =
      .error "Host header does not match :authority." :=
  ((ht1HostSynthesis
      [(":method", "GET"), (":scheme", "https"), (":authority", "e.com"),
       (":path", "/"), ("host", "other.com")] false
      { method := some "GET", scheme := some "https", authority := some "e.com",
        path := some "/", host := some "other.com", needTransferEncoding := false,
        regularHeaders := [("Host", "other.com")] }
      "GET" "e.com" (by decide) rfl rfl (by decide) rfl rfl).2.2
    "other.com" rfl (by decide)).1

/-- **C3.** An HTTP/1 request submitted with a body (`has_content`,
that is, `end_stream=false`) whose header list contains neither
`Content-Length` nor `Transfer-Encoding` gets a `Transfer-Encoding:
chunked` header inserted by the serializer, and the body is emitted
chunk-framed; in particular the literal POST scenario of the spec produces
exactly the bytes
`POST / HTTP/1.1\r\nHost: e.com\r\nTransfer-Encoding: chunked\r\n\r\n2\r\nhi\r\n0\r\n\r\n`. -/
theorem ht1ChunkedTransferEncoding (hs : List Header) (s : RequestScan)
    (method authority : String)
    (hscan : scanRequestHeaders hs { needTransferEncoding := true } = .ok s)
    (hm : s.method = some method) (ha : s.authority = some authority)
    (hnc : method ≠ "CONNECT") (hsch : s.scheme.isSome = true)
    (hp : s.path.isSome = true)
    (hnoCLTE : ∀ q ∈ hs,
       ¬(strLower q.1 = "content-length" ∨ strLower q.1 = "transfer-encoding"))
    (hhost : s.host = none ∨ s.host = some authority) :
    (∃ req, headersToRequest hs true = .ok req ∧
       ("Transfer-Encoding", "chunked") ∈ req.headers) ∧
    (do
      let st1 ← ht1SubmitHeaders (ht1ClientInit "https") 1
        [(":method", "POST"), (":scheme", "https"), (":authority", "e.com"),
         (":path", "/")] false
      let st2 ← ht1SubmitData st1 1 "hi" true
      pure (ht1BytesToSend st2).1) =
      .ok "POST / HTTP/1.1\r\nHost: e.com\r\nTransfer-Encoding: chunked\r\n\r\n2\r\nhi\r\n0\r\n\r\n" := by
  constructor
  · obtain ⟨fields1, fields2, fields3⟩ := scanRequestHeaders_fields hs s _ hscan
    have hTE : s.needTransferEncoding = true := fields2 hnoCLTE
    obtain ⟨sch, hsch'⟩ := Option.isSome_iff_exists.mp hsch
    obtain ⟨pathv, hpath⟩ := Option.isSome_iff_exists.mp hp
    rcases hhost with hhost | hhost
    · refine ⟨⟨method, ("Host", authority) ::
        (s.regularHeaders ++ [("Transfer-Encoding", "chunked")]), pathv⟩, ?_, ?_⟩
      · simp only [headersToRequest, hscan, hm, ha, hnc, hsch', hpath, hhost, hTE,
          if_false, ite_false, ite_true, if_true]
      · exact List.mem_cons_of_mem _ (List.mem_append_right _ (by simp))
    · refine ⟨⟨method, s.regularHeaders ++ [("Transfer-Encoding", "chunked")],
        pathv⟩, ?_, ?_⟩
      · simp only [headersToRequest, hscan, hm, ha, hnc, hsch', hpath, hhost, hTE,
          if_false, ite_false, ite_true, if_true, if_pos rfl]
      · exact List.mem_append_right _ (by simp)
  · decide

/-- Witness for **C3**: the literal POST headers without
`Content-Length`/`Transfer-Encoding` get `Transfer-Encoding: chunked`. -/
theorem ht1ChunkedTransferEncoding_witness :
    ∃ req, headersToRequest
        [(":method", "POST"), (":scheme", "https"), (":authority", "e.com"),
         (":path", "/")] true = .ok req ∧
      ("Transfer-Encoding", "chunked") ∈ req.headers :=
  (ht1ChunkedTransferEncoding
      [(":method", "POST"), (":scheme", "https"), (":authority", "e.com"),
       (":path", "/")]
      { method := some "POST", scheme := some "https", authority := some "e.com",
        path := some "/", host := none, needTransferEncoding := true,
        regularHeaders := [] }
      "POST" "e.com" (by decide) rfl rfl (by decide) rfl rfl (by decide)
      (Or.inl rfl)).1

end Hface
